import Mathlib

/-!
Verification of the curl FFI binding layer (`src/ffi/easy.rs`).

The Rust source is shallowly embedded: pointers become `Nat` (0 models NULL),
byte buffers become `List Nat`, the native engine's externally determined
behaviour (which callbacks it invokes, with which buffers, and the result
codes of its calls) is an explicit `NativeRun` oracle, and the three
`extern "C"` callback bridges are translated function-by-function.
Components of the repository that are outside `src/` (the `err`, `consts`,
`opt` and `info` modules, the `Body` trait, `Response::new` and the header
line tokenizer `header::parse`) are modelled from the spec and marked so.
-/

set_option autoImplicit false
set_option linter.unusedVariables false

namespace Curl

/-- A byte of a transfer buffer. -/
abbrev Byte := Nat

/-- Modelled from the spec: the error-code wrapper of the `err` module (not
under `src/`) wraps a native integer result code. -/
structure ErrCode where
  code : Int
deriving DecidableEq, Repr

/-- Modelled from the spec: the success predicate of the error-code wrapper;
the native engine reports zero for success. -/
def ErrCode.is_success (e : ErrCode) : Bool := e.code == 0

/-- Modelled from the spec: `consts::CURL_READFUNC_ABORT`, the reserved abort
sentinel of the native engine's read-callback contract (`0x10000000`). -/
def CURL_READFUNC_ABORT : Nat := 0x10000000

/-- The header map `HashMap<String, Vec<String>>` of `ResponseBuilder`,
modelled as an association list (the hash map imposes no key order). -/
abbrev Headers := List (String × List String)

/-- Lookup of the value sequence stored under a header name (empty when the
name is absent); mirrors `HashMap::find`. -/
def findVals : Headers → String → List String
  | [], _ => []
  | (n, vs) :: rest, q => if n = q then vs else findVals rest q

/-- `ResponseBuilder` (easy.rs lines 109-113). -/
structure ResponseBuilder where
  code : Nat
  hdrs : Headers
  body : List Byte
deriving DecidableEq, Repr

/-- Modelled from the spec: the immutable `Response` produced by one
`perform`; its constructor lives outside `src/`. -/
structure Response where
  code : Nat
  hdrs : Headers
  body : List Byte
deriving DecidableEq, Repr

/-- Modelled from the spec: `Response::new(code, hdrs, body)`. -/
def Response.new (code : Nat) (hdrs : Headers) (body : List Byte) : Response :=
  { code := code, hdrs := hdrs, body := body }

/-- `ResponseBuilder::new` (easy.rs lines 116-122). -/
def ResponseBuilder.new : ResponseBuilder :=
  { code := 0, hdrs := [], body := [] }

/-- The map update performed by `add_header` (easy.rs lines 124-138): push
onto the value vector found under the name, otherwise insert a fresh
single-element vector. -/
def addVal : Headers → String → String → Headers
  | [], name, val => [(name, [val])]
  | (n, vs) :: rest, name, val =>
      if n = name then (n, vs ++ [val]) :: rest
      else (n, vs) :: addVal rest name val

/-- `ResponseBuilder::add_header` (easy.rs lines 124-138). -/
def ResponseBuilder.add_header (b : ResponseBuilder) (name val : String) :
    ResponseBuilder :=
  { b with hdrs := addVal b.hdrs name val }

/-- `ResponseBuilder::build` (easy.rs lines 140-143). -/
def ResponseBuilder.build (b : ResponseBuilder) : Response :=
  Response.new b.code b.hdrs b.body

/-- The error kinds of a body read relevant to the bridge: `io::EndOfFile`
versus every other kind. -/
inductive IoErrKind
  | EndOfFile
  | OtherErr
deriving DecidableEq, Repr

/-- One scripted step of a body source: produce bytes, report end-of-stream,
or report a generic failure. -/
inductive BodyStep
  | dataStep (bytes : List Byte)
  | eofStep
  | failStep
deriving DecidableEq, Repr

/-- Modelled from the spec: the `Body` source abstraction (its module is not
under `src/`): a pull-read capability, here scripted as a list of steps. -/
structure Body where
  steps : List BodyStep
deriving DecidableEq, Repr

/-- Modelled from the spec: `Body::read(dst)` either fills up to `dst.length`
bytes and reports how many, reports a clean end-of-stream, or reports a
generic failure. Returns (outcome, buffer after the call, remaining body). -/
def Body.read (b : Body) (dst : List Byte) :
    (Except IoErrKind Nat) × List Byte × Body :=
  match b.steps with
  | [] => (.error .EndOfFile, dst, b)
  | .dataStep bytes :: rest =>
      let w := bytes.take dst.length
      (.ok w.length, w ++ dst.drop w.length, { steps := rest })
  | .eofStep :: rest => (.error .EndOfFile, dst, { steps := rest })
  | .failStep :: rest => (.error .OtherErr, dst, { steps := rest })

/-- `curl_read_fn` (easy.rs lines 152-169). The context pointer is an
`Option Body` (`none` models NULL). Returns (return value, buffer after the
call, body after the call). -/
def curl_read_fn (buf : List Byte) (size nmemb : Nat) (body : Option Body) :
    Nat × List Byte × Option Body :=
  match body with
  | none => (0, buf, none)
  | some b =>
      match b.read (buf.take (size * nmemb)) with
      | (.ok len, dst2, b2) => (len, dst2 ++ buf.drop (size * nmemb), some b2)
      | (.error .EndOfFile, dst2, b2) =>
          (0, dst2 ++ buf.drop (size * nmemb), some b2)
      | (.error .OtherErr, dst2, b2) =>
          (CURL_READFUNC_ABORT, dst2 ++ buf.drop (size * nmemb), some b2)

/-- `curl_write_fn` (easy.rs lines 172-180). The context pointer is an
`Option ResponseBuilder` (`none` models NULL): the append is guarded by the
null check, the return value `size * nmemb` is not. -/
def curl_write_fn (buf : List Byte) (size nmemb : Nat)
    (resp : Option ResponseBuilder) : Option ResponseBuilder × Nat :=
  match resp with
  | none => (none, size * nmemb)
  | some b =>
      (some { b with body := b.body ++ buf.take (size * nmemb) }, size * nmemb)

/-- The header line tokenizer `header::parse` (outside `src/`), kept abstract:
any function from a raw byte line to an optional (name, value) pair. -/
abbrev HeaderParse := List Byte → Option (String × String)

/-- `curl_header_fn` (easy.rs lines 183-196). Its context arrives as
`&mut ResponseBuilder`, a reference with no null check in the source, so the
model takes a `ResponseBuilder` directly. Returns (builder, return value). -/
def curl_header_fn (parse : HeaderParse) (buf : List Byte) (size nmemb : Nat)
    (resp : ResponseBuilder) : ResponseBuilder × Nat :=
  let vec := buf.take (size * nmemb)
  match parse vec with
  | some (name, val) => (resp.add_header name val, vec.length)
  | none => (resp, vec.length)

/-- The native option keys wired by this layer (`opt` module, outside
`src/`); other keys are carried opaquely. -/
inductive Opt
  | READFUNCTION
  | READDATA
  | WRITEFUNCTION
  | WRITEDATA
  | HEADERFUNCTION
  | HEADERDATA
  | OTHER (key : Nat)
deriving DecidableEq, Repr

/-- The three callback bridges, as function-pointer values. -/
inductive CallbackFn
  | readFn
  | writeFn
  | headerFn
deriving DecidableEq, Repr

/-- The argument of a native configuration call: a callback function pointer
or an opaque context pointer. -/
inductive CArg
  | fnPtr (f : CallbackFn)
  | ctxPtr (p : Nat)
deriving DecidableEq, Repr

/-- One native configuration call issued by `perform`. -/
abbrev ConfigCall := Opt × CArg

/-- One callback invocation the native engine performs during
`curl_easy_perform`: a write, header, or read callback with its buffer and
`size`/`nmemb` arguments. -/
inductive CbEvent
  | writeEv (buf : List Byte) (size nmemb : Nat)
  | headerEv (buf : List Byte) (size nmemb : Nat)
  | readEv (buf : List Byte) (size nmemb : Nat)
deriving DecidableEq, Repr

/-- Apply one engine-initiated callback invocation to the (builder, body)
state, dispatching to the embedded bridges exactly as the installed contexts
direct: write and header calls receive the builder, read calls the body. -/
def runEvent (parse : HeaderParse) (st : ResponseBuilder × Option Body)
    (ev : CbEvent) : ResponseBuilder × Option Body :=
  match ev with
  | .writeEv buf size nmemb =>
      (((curl_write_fn buf size nmemb (some st.1)).1).getD st.1, st.2)
  | .headerEv buf size nmemb =>
      ((curl_header_fn parse buf size nmemb st.1).1, st.2)
  | .readEv buf size nmemb =>
      (st.1, (curl_read_fn buf size nmemb st.2).2.2)

/-- The cumulative effect of the engine's callback invocations during one
blocking `curl_easy_perform` call. -/
def runEvents (parse : HeaderParse) (events : List CbEvent)
    (st : ResponseBuilder × Option Body) : ResponseBuilder × Option Body :=
  events.foldl (runEvent parse) st

/-- The externally determined behaviour of one native run: the result codes
of the six internal wiring `curl_easy_setopt` calls (the source discards
them), the callback invocations issued during the blocking transfer, the
transfer's result code, and the result code and output of the status query. -/
structure NativeRun where
  wiringResults : List ErrCode
  performResult : ErrCode
  events : List CbEvent
  getinfoResult : ErrCode
  getinfoValue : Int
deriving DecidableEq, Repr

/-- `Easy` (easy.rs lines 21-23): owns the native engine pointer, modelled as
a `Nat` (0 models NULL). -/
structure Easy where
  curl : Nat
deriving DecidableEq, Repr

/-- `Easy::new` (easy.rs lines 26-30): stores the result of `curl_easy_init`
(here the oracle value `initRet`) with no null check and no failure path. -/
def Easy.new (initRet : Nat) : Easy :=
  { curl := initRet }

/-- `Easy::setopt` (easy.rs lines 33-44): issue one native configuration call
whose result code is the oracle value `res`, and translate it. -/
def Easy.setopt (e : Easy) (option : Opt) (res : ErrCode) :
    Except ErrCode Unit :=
  if res.is_success then .ok () else .error res

/-- `Easy::get_info_long` (easy.rs lines 85-94): one native query call; on
failure return the code, on success the value the engine wrote. -/
def Easy.get_info_long (e : Easy) (o : NativeRun) : Except ErrCode Int :=
  if !o.getinfoResult.is_success then .error o.getinfoResult
  else .ok o.getinfoValue

/-- The `as uint` cast of a `c_long` on a 64-bit target (easy.rs line 82). -/
def uintOfLong (v : Int) : Nat := (v % (2 ^ 64)).toNat

/-- `Easy::get_response_code` (easy.rs lines 81-83). -/
def Easy.get_response_code (e : Easy) (o : NativeRun) : Except ErrCode Nat :=
  match e.get_info_long o with
  | .error err => .error err
  | .ok v => .ok (uintOfLong v)

/-- The six internal configuration calls of `perform` (easy.rs lines 57-65),
in source order, given the builder context pointer and the read context
pointer. -/
def performConfigCalls (resp_p body_p : Nat) : List ConfigCall :=
  [ (.READFUNCTION, .fnPtr .readFn),
    (.READDATA, .ctxPtr body_p),
    (.WRITEFUNCTION, .fnPtr .writeFn),
    (.WRITEDATA, .ctxPtr resp_p),
    (.HEADERFUNCTION, .fnPtr .headerFn),
    (.HEADERDATA, .ctxPtr resp_p) ]

/-- `Easy::perform` (easy.rs lines 47-79). `resp_p` models the address of
the stack builder, `bodyAddr` the address a supplied body transmutes to; a
missing body passes 0. Returns the wiring-call trace alongside the result.
The six wiring calls each return an `ErrCode` (`o.wiringResults`) that the
source discards. -/
def Easy.perform (e : Easy) (o : NativeRun) (parse : HeaderParse)
    (body : Option Body) (resp_p bodyAddr : Nat) :
    List ConfigCall × Except ErrCode Response :=
  let body_p : Nat :=
    match body with
    | some _ => bodyAddr
    | none => 0
  let _discarded := o.wiringResults
  let st := runEvents parse o.events (ResponseBuilder.new, body)
  let err := o.performResult
  let result : Except ErrCode Response :=
    if !err.is_success then .error err
    else
      match e.get_response_code o with
      | .error e2 => .error e2
      | .ok code => .ok (ResponseBuilder.build { st.1 with code := code })
  (performConfigCalls resp_p body_p, result)

/-- One bridge invocation: a buffer together with the `size` and `nmemb`
arguments the engine passes. -/
structure CbCall where
  buf : List Byte
  size : Nat
  nmemb : Nat
deriving DecidableEq, Repr

/-- Fold a sequence of write-bridge invocations with a non-null builder
context over a builder. -/
def foldWrites (calls : List CbCall) (b : ResponseBuilder) : ResponseBuilder :=
  calls.foldl
    (fun acc c => ((curl_write_fn c.buf c.size c.nmemb (some acc)).1).getD acc) b

/-- Fold a sequence of header-bridge invocations over a builder. -/
def foldHeaders (parse : HeaderParse) (calls : List CbCall)
    (b : ResponseBuilder) : ResponseBuilder :=
  calls.foldl (fun acc c => (curl_header_fn parse c.buf c.size c.nmemb acc).1) b

/-- The (name, value) pairs a parse function extracts from an invocation
sequence, restricted to one header name, in call order. -/
def valuesUnder (parse : HeaderParse) (calls : List CbCall) (q : String) :
    List String :=
  (calls.filterMap (fun c => parse c.buf)).filterMap
    (fun p => if p.1 = q then some p.2 else none)

/-- A concrete header tokenizer used to exercise the header bridge on
concrete inputs. -/
def sampleParse : HeaderParse := fun l =>
  if l = [1] then some ("A", "x")
  else if l = [2] then some ("A", "y")
  else if l = [3] then some ("B", "z")
  else none

/-!  Theorems. -/

/-- Helper: the body accumulated by folding the write bridge is the initial
body followed by the first `size * nmemb` bytes of each buffer, and the
header map and status code are untouched. -/
theorem foldWrites_spec (calls : List CbCall) (b : ResponseBuilder) :
    (foldWrites calls b).body
      = b.body ++ (calls.map (fun c => c.buf.take (c.size * c.nmemb))).flatten
    ∧ (foldWrites calls b).hdrs = b.hdrs
    ∧ (foldWrites calls b).code = b.code := by
  induction calls generalizing b with
  | nil => simp [foldWrites]
  | cons c cs ih =>
      have h : foldWrites (c :: cs) b
          = foldWrites cs { b with body := b.body ++ c.buf.take (c.size * c.nmemb) } := rfl
      rw [h]
      rcases ih { b with body := b.body ++ c.buf.take (c.size * c.nmemb) } with
        ⟨h1, h2, h3⟩
      refine ⟨?_, h2, h3⟩
      rw [h1]
      simp [List.append_assoc]

/-- Claim C1: over any invocation sequence of the write bridge with a
non-null builder context and full-length buffers, the final body is the
initial body followed by the concatenation of the chunks in call order, and
every single invocation returns exactly `size * nmemb`. -/
theorem write_bridge_accumulation (calls : List CbCall) (b : ResponseBuilder)
    (hlen : ∀ c ∈ calls, c.buf.length = c.size * c.nmemb) :
    (foldWrites calls b).body = b.body ++ (calls.map (fun c => c.buf)).flatten
    ∧ ∀ (buf : List Byte) (size nmemb : Nat) (rb : ResponseBuilder),
        (curl_write_fn buf size nmemb (some rb)).2 = size * nmemb := by
  constructor
  · rw [(foldWrites_spec calls b).1]
    have hm : calls.map (fun c => c.buf.take (c.size * c.nmemb))
        = calls.map (fun c => c.buf) := by
      apply List.map_congr_left
      intro c hc
      rw [← hlen c hc, List.take_length]
    rw [hm]
  · intro buf size nmemb rb
    rfl

/-- Claim C1 witness: two concrete write invocations concatenate in order
and a concrete invocation returns its full byte count. -/
theorem write_bridge_accumulation_witness :
    (foldWrites [{ buf := [1, 2], size := 1, nmemb := 2 },
                 { buf := [3], size := 1, nmemb := 1 }] ResponseBuilder.new).body
      = [1, 2, 3]
    ∧ (curl_write_fn [9] 1 1 (some ResponseBuilder.new)).2 = 1 := by
  have h := write_bridge_accumulation
    [{ buf := [1, 2], size := 1, nmemb := 2 },
     { buf := [3], size := 1, nmemb := 1 }] ResponseBuilder.new (by decide)
  exact ⟨by rw [h.1]; rfl, h.2 [9] 1 1 ResponseBuilder.new⟩

/-- Claim C2: the read bridge with a non-null body context maps the pull-read
outcome — success with `len` bytes returns `len`, end-of-stream returns 0,
any other failure returns `CURL_READFUNC_ABORT` — and the sentinel differs
from every valid byte count whenever the buffer capacity is below it. -/
theorem read_bridge_outcomes (buf : List Byte) (size nmemb : Nat) (b : Body) :
    ((curl_read_fn buf size nmemb (some b)).1
      = match (b.read (buf.take (size * nmemb))).1 with
        | .ok len => len
        | .error .EndOfFile => 0
        | .error .OtherErr => CURL_READFUNC_ABORT)
    ∧ (∀ len : Nat, len ≤ size * nmemb → size * nmemb < CURL_READFUNC_ABORT →
        len ≠ CURL_READFUNC_ABORT) := by
  constructor
  · rcases h : b.read (buf.take (size * nmemb)) with ⟨r, dst2, b2⟩
    rcases r with k | len
    · cases k <;> simp [curl_read_fn, h]
    · simp [curl_read_fn, h]
  · intro len h1 h2
    unfold CURL_READFUNC_ABORT at h2 ⊢
    omega

/-- Claim C2 witness: a body whose read fails generically makes a concrete
read-bridge call return the abort sentinel, and the byte count 2 (valid for
capacity 3) differs from the sentinel. -/
theorem read_bridge_outcomes_witness :
    (curl_read_fn [0, 0, 0] 1 3 (some { steps := [BodyStep.failStep] })).1
      = CURL_READFUNC_ABORT
    ∧ (2 : Nat) ≠ CURL_READFUNC_ABORT := by
  have h := read_bridge_outcomes [0, 0, 0] 1 3 { steps := [BodyStep.failStep] }
  exact ⟨by rw [h.1]; rfl, h.2 2 (by decide) (by decide)⟩

/-- Claim C3: when the native transfer call fails, `perform` returns exactly
that `ErrCode` as `Err`; the accumulated builder is discarded and no
`Response` is produced. -/
theorem perform_native_failure_discards (e : Easy) (o : NativeRun)
    (parse : HeaderParse) (body : Option Body) (resp_p bodyAddr : Nat)
    (h : o.performResult.is_success = false) :
    (e.perform o parse body resp_p bodyAddr).2 = .error o.performResult := by
  simp [Easy.perform, h]

/-- Claim C3 witness: a run whose transfer fails with code 7 after a write
callback delivered bytes still returns exactly `Err` of code 7. -/
theorem perform_native_failure_discards_witness :
    ((Easy.new 1).perform
      { wiringResults := [], performResult := { code := 7 },
        events := [CbEvent.writeEv [1, 2] 1 2],
        getinfoResult := { code := 0 }, getinfoValue := 200 }
      (fun _ => none) none 42 0).2 = .error { code := 7 } := by
  exact perform_native_failure_discards (Easy.new 1)
    { wiringResults := [], performResult := { code := 7 },
      events := [CbEvent.writeEv [1, 2] 1 2],
      getinfoResult := { code := 0 }, getinfoValue := 200 }
    (fun _ => none) none 42 0 (by decide)

/-- Claim C4: when the transfer succeeds but the status-code query fails,
`perform` returns the query's `ErrCode` and no `Response`; when both
succeed, the returned `Response`'s status code is exactly the value
`get_response_code` returns. -/
theorem perform_status_query_coupling (e : Easy) (o : NativeRun)
    (parse : HeaderParse) (body : Option Body) (resp_p bodyAddr : Nat)
    (hp : o.performResult.is_success = true) :
    (o.getinfoResult.is_success = false →
        (e.perform o parse body resp_p bodyAddr).2 = .error o.getinfoResult)
    ∧ (o.getinfoResult.is_success = true →
        ∃ r : Response, (e.perform o parse body resp_p bodyAddr).2 = .ok r
          ∧ r.code = uintOfLong o.getinfoValue
          ∧ e.get_response_code o = .ok r.code) := by
  constructor
  · intro hq
    simp [Easy.perform, Easy.get_response_code, Easy.get_info_long, hp, hq]
  · intro hq
    refine ⟨ResponseBuilder.build
      { (runEvents parse o.events (ResponseBuilder.new, body)).1
          with code := uintOfLong o.getinfoValue }, ?_, rfl, ?_⟩
    · simp [Easy.perform, Easy.get_response_code, Easy.get_info_long, hp, hq]
    · simp [Easy.get_response_code, Easy.get_info_long, hq,
        ResponseBuilder.build, Response.new]

/-- Claim C4 witness: with a successful transfer and a status query failing
with code 9, a concrete `perform` returns `Err` of code 9. -/
theorem perform_status_query_coupling_witness :
    ((Easy.new 1).perform
      { wiringResults := [], performResult := { code := 0 }, events := [],
        getinfoResult := { code := 9 }, getinfoValue := 0 }
      (fun _ => none) none 42 0).2 = .error { code := 9 } := by
  exact (perform_status_query_coupling (Easy.new 1)
    { wiringResults := [], performResult := { code := 0 }, events := [],
      getinfoResult := { code := 9 }, getinfoValue := 0 }
    (fun _ => none) none 42 0 (by decide)).1 (by decide)

/-- Claim C6 (amended): only `curl_read_fn` returns zero on a null context,
touching nothing; `curl_write_fn` on a null context leaves the buffer and
builder state untouched (its output is independent of the buffer) but
returns `size * nmemb`, not zero; `curl_header_fn` receives its context as a
reference and performs no null check. -/
theorem null_context_behaviour (buf buf2 : List Byte) (size nmemb : Nat) :
    curl_read_fn buf size nmemb none = (0, buf, none)
    ∧ curl_write_fn buf size nmemb none = (none, size * nmemb)
    ∧ curl_write_fn buf size nmemb none = curl_write_fn buf2 size nmemb none := by
  exact ⟨rfl, rfl, rfl⟩

/-- Claim C6 counterexample: `curl_write_fn` invoked with a null context and
five buffer bytes returns `size * nmemb = 5`, not zero. -/
theorem null_context_counterexample :
    (curl_write_fn [0, 0, 0, 0, 0] 1 5 none).2 = 5 ∧ (5 : Nat) ≠ 0 := by
  exact ⟨rfl, by decide⟩

/-- Claim C7 (amended): on every call `perform` issues exactly six native
configuration calls, in fixed source order, installing the three callback
bridges and their three context pointers; without a body the read context is
the null sentinel 0, with a body its address is installed. -/
theorem perform_wiring_calls (e : Easy) (o : NativeRun) (parse : HeaderParse)
    (resp_p bodyAddr : Nat) :
    (∀ b : Body, (e.perform o parse (some b) resp_p bodyAddr).1
        = performConfigCalls resp_p bodyAddr)
    ∧ ((e.perform o parse none resp_p bodyAddr).1 = performConfigCalls resp_p 0)
    ∧ (∀ rp bp : Nat, performConfigCalls rp bp
        = [ (.READFUNCTION, .fnPtr .readFn), (.READDATA, .ctxPtr bp),
            (.WRITEFUNCTION, .fnPtr .writeFn), (.WRITEDATA, .ctxPtr rp),
            (.HEADERFUNCTION, .fnPtr .headerFn), (.HEADERDATA, .ctxPtr rp) ])
    ∧ (∀ rp bp : Nat, (performConfigCalls rp bp).length = 6) := by
  exact ⟨fun b => rfl, rfl, fun rp bp => rfl, fun rp bp => rfl⟩

/-- Claim C7 counterexample: a concrete `perform` call issues six native
configuration calls, not four. -/
theorem perform_wiring_counterexample :
    (((Easy.new 1).perform
      { wiringResults := [], performResult := { code := 0 }, events := [],
        getinfoResult := { code := 0 }, getinfoValue := 200 }
      (fun _ => none) none 42 0).1).length = 6 ∧ (6 : Nat) ≠ 4 := by
  exact ⟨rfl, by decide⟩

/-- Claim C8 (amended): `setopt`, the blocking transfer call, and the
attribute query each have their native result translated into `Ok` on
success or the `ErrCode` itself on failure and surfaced to the caller; the
six internal callback-wiring configuration calls in `perform`, however, have
their native results discarded — `perform`'s outcome does not depend on
them. -/
theorem native_results_surfacing (e : Easy) (o : NativeRun) (option : Opt)
    (res : ErrCode) (parse : HeaderParse) (body : Option Body)
    (resp_p bodyAddr : Nat) (w : List ErrCode) :
    (res.is_success = true → e.setopt option res = .ok ())
    ∧ (res.is_success = false → e.setopt option res = .error res)
    ∧ (o.getinfoResult.is_success = false →
        e.get_info_long o = .error o.getinfoResult)
    ∧ (o.getinfoResult.is_success = true →
        e.get_info_long o = .ok o.getinfoValue)
    ∧ (o.performResult.is_success = false →
        (e.perform o parse body resp_p bodyAddr).2 = .error o.performResult)
    ∧ (e.perform { o with wiringResults := w } parse body resp_p bodyAddr
        = e.perform o parse body resp_p bodyAddr) := by
  refine ⟨fun h => ?_, fun h => ?_, fun h => ?_, fun h => ?_, fun h => ?_, rfl⟩
  · simp [Easy.setopt, h]
  · simp [Easy.setopt, h]
  · simp [Easy.get_info_long, h]
  · simp [Easy.get_info_long, h]
  · simp [Easy.perform, h]

/-- Claim C8 (amended) witness: a failed `setopt` with code 6 surfaces as
`Err` of code 6. -/
theorem native_results_surfacing_witness :
    (Easy.new 1).setopt (Opt.OTHER 10002) { code := 6 }
      = .error { code := 6 } := by
  exact (native_results_surfacing (Easy.new 1)
    { wiringResults := [], performResult := { code := 0 }, events := [],
      getinfoResult := { code := 0 }, getinfoValue := 0 }
    (Opt.OTHER 10002) { code := 6 } (fun _ => none) none 0 0 []).2.1 (by decide)

/-- Claim C8 counterexample: a run whose first internal wiring call fails
with code 7 still yields `Ok` from `perform`; the wiring calls' native
results are ignored, contradicting "no native result is ignored or
swallowed at this layer". -/
theorem native_results_counterexample :
    ErrCode.is_success { code := 7 } = false
    ∧ ((Easy.new 1).perform
        { wiringResults := [{ code := 7 }, { code := 0 }, { code := 0 },
            { code := 0 }, { code := 0 }, { code := 0 }],
          performResult := { code := 0 }, events := [],
          getinfoResult := { code := 0 }, getinfoValue := 200 }
        (fun _ => none) none 42 0).2
      = .ok (Response.new 200 [] []) := by
  exact ⟨by decide, rfl⟩

/-- Helper: the effect of one `add_header` on the value sequence stored
under each name — the named key gains `val` at the end, others are
untouched. -/
theorem findVals_addVal (hdrs : Headers) (name val q : String) :
    findVals (addVal hdrs name val) q
      = if q = name then findVals hdrs name ++ [val] else findVals hdrs q := by
  induction hdrs with
  | nil =>
      by_cases h : q = name
      · subst h; simp [addVal, findVals]
      · simp [addVal, findVals, h, Ne.symm h]
  | cons p rest ih =>
      rcases p with ⟨n, vs⟩
      by_cases h1 : n = name
      · subst h1
        by_cases h2 : q = n
        · subst h2; simp [addVal, findVals]
        · simp [addVal, findVals, h2, Ne.symm h2]
      · by_cases h2 : n = q
        · subst h2
          simp [addVal, findVals, h1]
        · simp [addVal, findVals, h1, h2, ih]

/-- Helper: folding the header bridge over an invocation sequence with
full-length buffers accumulates, under every name, exactly the parsed values
carrying that name, in call order. -/
theorem foldHeaders_spec (parse : HeaderParse) (calls : List CbCall) :
    ∀ (b : ResponseBuilder) (q : String),
      (∀ c ∈ calls, c.buf.length = c.size * c.nmemb) →
      findVals (foldHeaders parse calls b).hdrs q
        = findVals b.hdrs q ++ valuesUnder parse calls q := by
  induction calls with
  | nil => intro b q _; simp [foldHeaders, valuesUnder]
  | cons c cs ih =>
      intro b q hlen
      have hc : c.buf.length = c.size * c.nmemb := hlen c (by simp)
      have hcs : ∀ x ∈ cs, x.buf.length = x.size * x.nmemb :=
        fun x hx => hlen x (by simp [hx])
      have hstep : foldHeaders parse (c :: cs) b
          = foldHeaders parse cs (curl_header_fn parse c.buf c.size c.nmemb b).1 :=
        rfl
      have htake : c.buf.take (c.size * c.nmemb) = c.buf := by
        rw [← hc, List.take_length]
      rcases hp : parse c.buf with _ | ⟨name, val⟩
      · have hb : (curl_header_fn parse c.buf c.size c.nmemb b).1 = b := by
          simp [curl_header_fn, htake, hp]
        rw [hstep, hb, ih b q hcs]
        simp [valuesUnder, hp]
      · have hb : (curl_header_fn parse c.buf c.size c.nmemb b).1
            = b.add_header name val := by
          simp [curl_header_fn, htake, hp]
        rw [hstep, hb, ih _ q hcs]
        show findVals (addVal b.hdrs name val) q ++ _ = _
        rw [findVals_addVal]
        by_cases hq : q = name
        · subst hq
          simp [valuesUnder, hp, List.append_assoc]
        · simp [hq, valuesUnder, hp, Ne.symm hq]

/-- Claim C5: over any invocation sequence of the header bridge with
full-length buffers: each line the parser splits into (name, value) is
recorded via `add_header`, repeated names accumulating their values in call
order under one key; each line the parser rejects adds no header entry; and
every invocation returns the full byte count `size * nmemb` regardless of
parse outcome. -/
theorem header_bridge_accumulation (parse : HeaderParse) (calls : List CbCall)
    (b : ResponseBuilder)
    (hlen : ∀ c ∈ calls, c.buf.length = c.size * c.nmemb) :
    (∀ q : String, findVals (foldHeaders parse calls b).hdrs q
        = findVals b.hdrs q ++ valuesUnder parse calls q)
    ∧ (∀ (buf : List Byte) (size nmemb : Nat) (rb : ResponseBuilder),
        parse (buf.take (size * nmemb)) = none →
          (curl_header_fn parse buf size nmemb rb).1 = rb)
    ∧ (∀ (buf : List Byte) (size nmemb : Nat) (rb : ResponseBuilder),
        buf.length = size * nmemb →
          (curl_header_fn parse buf size nmemb rb).2 = size * nmemb) := by
  refine ⟨fun q => foldHeaders_spec parse calls b q hlen, ?_, ?_⟩
  · intro buf size nmemb rb hp
    simp [curl_header_fn, hp]
  · intro buf size nmemb rb hl
    rcases hp : parse (buf.take (size * nmemb)) with _ | ⟨nm, v⟩ <;>
      simp [curl_header_fn, hp, List.length_take, hl]

/-- Claim C5 witness: three concrete header lines, two parsing to the same
name "A" and one rejected, leave exactly ["x", "y"] under "A"; a rejected
line leaves the builder unchanged; an invocation returns its byte count. -/
theorem header_bridge_accumulation_witness :
    findVals (foldHeaders sampleParse
        [{ buf := [1], size := 1, nmemb := 1 },
         { buf := [9], size := 1, nmemb := 1 },
         { buf := [2], size := 1, nmemb := 1 }] ResponseBuilder.new).hdrs "A"
      = ["x", "y"]
    ∧ (curl_header_fn sampleParse [9] 1 1 ResponseBuilder.new).1
        = ResponseBuilder.new
    ∧ (curl_header_fn sampleParse [1] 1 1 ResponseBuilder.new).2 = 1 := by
  have h := header_bridge_accumulation sampleParse
    [{ buf := [1], size := 1, nmemb := 1 },
     { buf := [9], size := 1, nmemb := 1 },
     { buf := [2], size := 1, nmemb := 1 }] ResponseBuilder.new (by decide)
  refine ⟨?_, h.2.1 [9] 1 1 ResponseBuilder.new (by decide),
    h.2.2 [1] 1 1 ResponseBuilder.new (by decide)⟩
  rw [h.1 "A"]
  decide

/-- Claim C10: every `perform` starts from a fresh builder — status code 0,
empty header map, empty body — and a successful `perform`'s `Response`
consists exactly of the status-code query value together with the headers
and body produced by this call's callback events from that fresh builder;
nothing carries over between calls. -/
theorem perform_fresh_builder :
    ResponseBuilder.new = { code := 0, hdrs := [], body := [] }
    ∧ ∀ (e : Easy) (o : NativeRun) (parse : HeaderParse) (body : Option Body)
        (resp_p bodyAddr : Nat) (r : Response),
        (e.perform o parse body resp_p bodyAddr).2 = .ok r →
          r = Response.new (uintOfLong o.getinfoValue)
                (runEvents parse o.events (ResponseBuilder.new, body)).1.hdrs
                (runEvents parse o.events (ResponseBuilder.new, body)).1.body := by
  refine ⟨rfl, ?_⟩
  intro e o parse body resp_p bodyAddr r h
  cases hp : o.performResult.is_success with
  | false => simp [Easy.perform, hp] at h
  | true =>
      cases hq : o.getinfoResult.is_success with
      | false =>
          simp [Easy.perform, Easy.get_response_code, Easy.get_info_long,
            hp, hq] at h
      | true =>
          simp [Easy.perform, Easy.get_response_code, Easy.get_info_long,
            hp, hq] at h
          rw [← h]
          simp [ResponseBuilder.build, Response.new]

/-- Claim C10 witness: a concrete successful run with one write callback
yields exactly the response rebuilt from a fresh builder and this run's
events. -/
theorem perform_fresh_builder_witness :
    Response.new 200 [] [5]
      = Response.new (uintOfLong 200)
          (runEvents (fun _ => none) [CbEvent.writeEv [5] 1 1]
            (ResponseBuilder.new, none)).1.hdrs
          (runEvents (fun _ => none) [CbEvent.writeEv [5] 1 1]
            (ResponseBuilder.new, none)).1.body := by
  exact perform_fresh_builder.2 (Easy.new 1)
    { wiringResults := [], performResult := { code := 0 },
      events := [CbEvent.writeEv [5] 1 1], getinfoResult := { code := 0 },
      getinfoValue := 200 }
    (fun _ => none) none 42 0 (Response.new 200 [] [5]) (by rfl)

/-- Claim C9 (amended): `Easy::new` stores the native init result unchecked:
the returned handle's engine pointer is exactly what `curl_easy_init`
returned, with no null check and no process-level failure path. -/
theorem new_stores_init_result (r : Nat) : (Easy.new r).curl = r := rfl

/-- Claim C9 counterexample: when the native engine cannot allocate and
returns the null pointer (modelled as 0), `Easy::new` still returns a live
handle holding that null engine pointer, contradicting "a null engine
pointer is never stored in a live Handle". -/
theorem new_null_counterexample : (Easy.new 0).curl = 0 := rfl

end Curl
